import Mathlib

/-!
Shallow embedding of `cast_statusbar/main.py`: the marquee engine
(`window_marquee`), the status rotator (`StatusMonitor.status_rotator`),
status rendering (`Player.pretty` with Python `str.format`), device
discovery (`StatusMonitor.discover`) and the output driver loop (`run`),
together with theorems settling the specification claims.
-/

deriving instance DecidableEq for Except

namespace CastStatusbar

/-- Python `max(0, width)` for an integer width, as a natural number
(line 174: `width = max(0, width)`). -/
def pyWidth (width : Int) : Nat := (max 0 width).toNat

/-- Python `max(0, len(text) - width)` (line 175: `max_i = max(0, len(text) - width)`).
Natural subtraction already clamps at zero. -/
def maxOffset (text : String) (width : Int) : Nat :=
  text.length - pyWidth width

/-- Python slice `text[start : start + len]` for natural bounds: drop `start`
characters, then take at most `len`. -/
def pySlice (text : String) (start len : Nat) : String :=
  String.mk ((text.toList.drop start).take len)

/-- The triangle-wave index of line 181: `idx = max_i - abs(max_i - i)`. -/
def marqueeIdx (maxI i : Nat) : Nat :=
  maxI - ((maxI : Int) - (i : Int)).natAbs

/-- The infinite generator `window_marquee(text, width)` of lines 167-182,
embedded as the function from a step number `n` to the `n`-th yielded pair.
When `max_i = 0` every step yields `(True, text)`; otherwise the `for i in
range(max_i * 2)` loop repeats forever, so step `n` corresponds to
`i = n % (max_i * 2)`, with `idx = max_i - abs(max_i - i)` and the yielded
pair `(idx % max_i == 0, text[idx : idx + width])`. -/
def window_marquee (text : String) (width : Int) (n : Nat) : Bool × String :=
  let w := pyWidth width
  let maxI := maxOffset text width
  if maxI = 0 then
    (true, text)
  else
    let i := n % (maxI * 2)
    let idx := marqueeIdx maxI i
    (idx % maxI == 0, pySlice text idx w)

/-- Observed attributes of a `Player` (lines 31-82). Each property of the
Python class reads a field of the wrapped cast or media controller and
coalesces `None` to `''`; the structure holds the already-coalesced values.
`is_active` is the controller's boolean activity flag (its property returns
`True` or `''`). -/
structure Player where
  name : String
  app : String
  album : String
  artist : String
  title : String
  is_active : Bool
  player_state : String
  deriving DecidableEq

/-- `Player.status` (lines 64-72): ASCII glyph for the player state, with
the raw state as the dictionary-lookup default. -/
def Player.status (p : Player) : String :=
  if p.player_state = "PLAYING" then "> "
  else if p.player_state = "PAUSED" then "|| "
  else if p.player_state = "IDLE" then "# "
  else if p.player_state = "BUFFERING" then "8 "
  else p.player_state

/-- `Player.unicode_status` (lines 74-82): Unicode glyph for the player
state, with the raw state as the dictionary-lookup default. -/
def Player.unicode_status (p : Player) : String :=
  if p.player_state = "PLAYING" then "▶️  "
  else if p.player_state = "PAUSED" then "⏸️  "
  else if p.player_state = "IDLE" then "⏹️  "
  else if p.player_state = "BUFFERING" then "⌛ "
  else p.player_state

/-- Resolution of a replacement-field name against the single keyword
argument of `fmt.format(p=self)` (line 96). A field that does not start
with the attribute path `p.<known attribute>` raises `KeyError` or
`AttributeError`; both are modelled as `Except.error` carrying the field
text. `{p.is_active}` formats the property value `True` or `''`. -/
def lookupField (p : Player) (field : String) : Except String String :=
  if field = "p.name" then Except.ok p.name
  else if field = "p.app" then Except.ok p.app
  else if field = "p.album" then Except.ok p.album
  else if field = "p.artist" then Except.ok p.artist
  else if field = "p.title" then Except.ok p.title
  else if field = "p.player_state" then Except.ok p.player_state
  else if field = "p.status" then Except.ok p.status
  else if field = "p.unicode_status" then Except.ok p.unicode_status
  else if field = "p.is_active" then Except.ok (if p.is_active then "True" else "")
  else Except.error field

/-- Scanner state for `str.format`: in plain text, just after `{`, just
after `}`, or inside a replacement field (accumulated name reversed). -/
inductive ScanMode where
  | normal : ScanMode
  | sawOpen : ScanMode
  | sawClose : ScanMode
  | field : List Char → ScanMode
  deriving DecidableEq

/-- CPython `str.format` restricted to the fragment this program uses
(attribute replacement fields such as `\x7bp.name\x7d`, doubled-brace
escapes): scan the template left to right; `\x7b\x7b` and `\x7d\x7d`
are literal braces; `\x7b...\x7d` encloses a field name resolved by
`lookupField`; a lone brace is a `ValueError`. Format specs and
conversions never occur in this program's templates and are not given
special treatment (a field name containing them fails the lookup). -/
def formatScan (p : Player) (mode : ScanMode) : List Char → Except String (List Char)
  | [] =>
    match mode with
    | ScanMode.normal => Except.ok []
    | ScanMode.sawOpen => Except.error "Single brace encountered"
    | ScanMode.sawClose => Except.error "Single brace encountered"
    | ScanMode.field _ => Except.error "expected closing brace"
  | c :: rest =>
    match mode with
    | ScanMode.normal =>
      if c = '\x7b' then formatScan p ScanMode.sawOpen rest
      else if c = '\x7d' then formatScan p ScanMode.sawClose rest
      else (formatScan p ScanMode.normal rest).map (fun t => c :: t)
    | ScanMode.sawOpen =>
      if c = '\x7b' then (formatScan p ScanMode.normal rest).map (fun t => '\x7b' :: t)
      else if c = '\x7d' then
        match lookupField p "" with
        | Except.ok v => (formatScan p ScanMode.normal rest).map (fun t => v.toList ++ t)
        | Except.error e => Except.error e
      else formatScan p (ScanMode.field [c]) rest
    | ScanMode.sawClose =>
      if c = '\x7d' then (formatScan p ScanMode.normal rest).map (fun t => '\x7d' :: t)
      else Except.error "Single brace encountered"
    | ScanMode.field acc =>
      if c = '\x7d' then
        match lookupField p (String.mk acc.reverse) with
        | Except.ok v => (formatScan p ScanMode.normal rest).map (fun t => v.toList ++ t)
        | Except.error e => Except.error e
      else formatScan p (ScanMode.field (c :: acc)) rest

/-- `fmt.format(p=self)` (line 96). -/
def pyFormat (fmt : String) (p : Player) : Except String String :=
  (formatScan p ScanMode.normal fmt.toList).map String.mk

/-- Python `a and b` on strings: `b` when `a` is non-empty, else `a`
(which is `''`). -/
def pyAnd (a b : String) : String := if a = "" then a else b

/-- The default format built by `Player.pretty` when `fmt is None`
(lines 91-95), using Python string `and` semantics. -/
def defaultFmt (p : Player) : String :=
  let fmt := pyAnd p.name "\x7bp.name\x7d"
  let fmt := fmt ++ pyAnd p.app (pyAnd fmt " : " ++ "\x7bp.app\x7d")
  let fmt := fmt ++ pyAnd p.artist (pyAnd fmt " | " ++ "\x7bp.artist\x7d")
  let fmt := fmt ++ pyAnd p.title (pyAnd fmt " - " ++ "\x7bp.title\x7d")
  fmt

/-- `Player.pretty` (lines 90-96): render the format template (or the
default template when none is given) against this player. -/
def Player.pretty (p : Player) (fmt : Option String) : Except String String :=
  pyFormat (match fmt with | some f => f | none => defaultFmt p) p

/-- The player of end-to-end scenario 3: name `Den`, artist `Bowie`,
title `Heroes` (remaining attributes immaterial to the template). -/
def denPlayer : Player :=
  { name := "Den", app := "", album := "", artist := "Bowie",
    title := "Heroes", is_active := true, player_state := "PLAYING" }

/-- `StatusMonitor.active_players` (lines 148-151): players whose activity
flag is set and whose state is not `UNKNOWN`. -/
def active_players (players : List Player) : List Player :=
  players.filter (fun p => p.is_active && !(p.player_state == "UNKNOWN"))

/-- One pass of the `for player in self.active_players` loop inside
`StatusMonitor.status_rotator` (lines 157-160): render each player and
yield the result unless the blacklist matcher finds a match. A compiled
`re.Pattern` is always truthy, so `blacklist_matcher and not
blacklist_matcher.search(status)` reduces to the negated search; the
compiled regex is modelled by the abstract predicate `matcher`. An
exception raised while rendering propagates out of the generator. -/
def rotate_filter (matcher : String → Bool) (fmt : Option String) :
    List Player → Except String (List String)
  | [] => Except.ok []
  | p :: ps =>
    match p.pretty fmt with
    | Except.error e => Except.error e
    | Except.ok status =>
      match rotate_filter matcher fmt ps with
      | Except.error e => Except.error e
      | Except.ok rest =>
        if matcher status then Except.ok rest else Except.ok (status :: rest)

/-- One iteration of the `while True` loop of
`StatusMonitor.status_rotator` (lines 156-164) over a fixed player list:
run the filtered rendering pass, then, if no player is active, yield `''`
unconditionally (the subsequent `time.sleep(1)` is not modelled). -/
def status_rotator_pass (matcher : String → Bool) (fmt : Option String)
    (players : List Player) : Except String (List String) :=
  match rotate_filter matcher fmt (active_players players) with
  | Except.error e => Except.error e
  | Except.ok ys =>
    Except.ok (if active_players players = [] then ys ++ [""] else ys)

/-- Model of `re.search` for the default blacklist pattern `'^$'`
(line 238): without `re.MULTILINE`, `^` matches only at the start of the
string and `$` at its end or just before a trailing newline, so the search
succeeds exactly on `''` and on `'\n'`. -/
def matchesCaretDollar (s : String) : Bool := s == "" || s == "\n"

/-- A cast device as `discover` sees it: its uuid (opaque id). -/
structure CastDevice where
  uuid : Nat
  deriving DecidableEq

/-- A `Player` object as handled by `StatusMonitor.discover`: `uuid` is the
wrapped cast's uuid, `tag` stands for the Python object identity (two
players are the same object exactly when their tags are equal). -/
structure PlayerObj where
  uuid : Nat
  tag : Nat
  deriving DecidableEq

/-- `old_players = \x7bp._cast.uuid: p for p in self._players\x7d` followed
by `old_players.get(cast.uuid)` (lines 110 and 113): in a dict
comprehension a later entry overwrites an earlier one with the same key, so
the lookup returns the last player carrying the uuid, if any. -/
def old_players_get (players : List PlayerObj) (uuid : Nat) : Option PlayerObj :=
  (players.filter (fun p => p.uuid == uuid)).getLast?

/-- The cache logic of `StatusMonitor.discover` (lines 107-130): for each
cast in the incoming list, reuse the existing player with that uuid when
one is known, otherwise construct a fresh `Player` object. Fresh objects
receive identity tags `freshTag, freshTag + 1, ...`; choosing `freshTag`
above every existing tag makes them distinct from all previous objects.
Logging, handler registration and garbage collection are not modelled. -/
def discover (oldPlayers : List PlayerObj) : List CastDevice → Nat → List PlayerObj
  | [], _ => []
  | cast :: casts, freshTag =>
    (match old_players_get oldPlayers cast.uuid with
     | some player => player
     | none => { uuid := cast.uuid, tag := freshTag }) ::
      discover oldPlayers casts (freshTag + 1)

/-- The mutable state of the `run` loop (lines 192-195): `previous_output`
and `previous_status` start as `None`, `marquee` as `None`. A marquee
generator object is determined by the status text it was built from and
its cursor position, so it is modelled as that pair (the window width is
fixed by the arguments). -/
structure DriverState where
  previous_output : Option String
  previous_status : Option String
  marquee : Option (String × Nat)
  deriving DecidableEq

/-- Lines 198-200 of `run`: after pulling `status` from the rotator, when
it differs from `previous_status` (or no marquee exists yet) record it and
build a fresh marquee for it, cursor at the start. -/
def pullStep (st : DriverState) (status : String) : DriverState :=
  if st.previous_status ≠ some status ∨ st.marquee = none then
    { st with previous_status := some status, marquee := some (status, 0) }
  else st

/-- Lines 201-204 of `run`: take the next `(endpoint, output)` from the
marquee; print `output` only when it differs from `previous_output`, in
which case `previous_output` is updated. The returned option is the text
printed this step, if any. Sleeping and the period-based break condition
(lines 205-210) only affect timing and control flow, which the event list
of `driverRun` abstracts. -/
def scrollStep (width : Int) (st : DriverState) : DriverState × Option String :=
  match st.marquee with
  | none => (st, none)
  | some (text, k) =>
    let output := (window_marquee text width k).2
    if some output ≠ st.previous_output then
      ({ st with marquee := some (text, k + 1),
                 previous_output := some output }, some output)
    else
      ({ st with marquee := some (text, k + 1) }, none)

/-- An observable event of the `run` loop: pulling the next status from
the rotator, or consuming one marquee element. -/
inductive DriverEvent where
  | pull : String → DriverEvent
  | scroll : DriverEvent
  deriving DecidableEq

/-- The `run` loop (lines 196-210) over an arbitrary interleaving of pulls
and scroll steps, returning the final state and the list of printed
lines. Every control flow the timing conditions can produce is one such
event list. -/
def driverRun (width : Int) : DriverState → List DriverEvent → DriverState × List String
  | st, [] => (st, [])
  | st, DriverEvent.pull s :: es => driverRun width (pullStep st s) es
  | st, DriverEvent.scroll :: es =>
    let res := scrollStep width st
    let rest := driverRun width res.1 es
    (rest.1, res.2.toList ++ rest.2)

/-- The initial driver state of `run` (lines 193-195). -/
def initDriverState : DriverState :=
  { previous_output := none, previous_status := none, marquee := none }

/-- No element equals its predecessor, `prev` being the element emitted
just before the list (if any). -/
def noAdjDup (prev : Option String) : List String → Prop
  | [] => True
  | x :: xs =>
    (match prev with
     | none => True
     | some p => p ≠ x) ∧ noAdjDup (some x) xs

/-- The marquee being scrolled always belongs to the most recently pulled
status: the driver never scrolls a text that differs from the rotator's
current value. -/
def marquee_matches_status (st : DriverState) : Prop :=
  ∀ text k, st.marquee = some (text, k) → st.previous_status = some text

end CastStatusbar

namespace CastStatusbar

theorem beq_nat_eq_decide (a b : Nat) : (a == b) = decide (a = b) := by
  cases h : decide (a = b)
  · simp at h; simp [h]
  · simp at h; simp [h]

theorem mod_eq_zero_iff_of_le (m idx : Nat) (hm : 0 < m) (hle : idx ≤ m) :
    idx % m = 0 ↔ (idx = 0 ∨ idx = m) := by
  rcases Nat.lt_or_ge idx m with hlt | hge
  · rw [Nat.mod_eq_of_lt hlt]; omega
  · have heq : idx = m := le_antisymm hle hge
    subst heq; simp [Nat.mod_self]

theorem marqueeIdx_le (maxI i : Nat) : marqueeIdx maxI i ≤ maxI :=
  Nat.sub_le _ _

theorem marqueeIdx_of_le (maxI i : Nat) (h : i ≤ maxI) :
    marqueeIdx maxI i = i := by
  unfold marqueeIdx
  have : ((maxI : Int) - (i : Int)).natAbs = maxI - i := by
    omega
  omega

theorem marqueeIdx_of_ge (maxI i : Nat) (h : maxI ≤ i) :
    marqueeIdx maxI i = maxI - (i - maxI) := by
  unfold marqueeIdx
  have : ((maxI : Int) - (i : Int)).natAbs = i - maxI := by
    omega
  omega

theorem window_marquee_of_pos (text : String) (width : Int) (n : Nat)
    (hm : maxOffset text width ≠ 0) :
    window_marquee text width n =
      (marqueeIdx (maxOffset text width) (n % (maxOffset text width * 2)) %
         maxOffset text width == 0,
       pySlice text
         (marqueeIdx (maxOffset text width) (n % (maxOffset text width * 2)))
         (pyWidth width)) := by
  unfold window_marquee
  simp [hm]

/-- C1: for `length(text) > max(0, width)` the stream of `window_marquee`
is periodic with period `2 * max_offset`; within a period, step `i` yields
offset `max_offset - abs(max_offset - i)`, window `text[offset : offset + width]`,
and the flag is true exactly when the offset is `0` or `max_offset`. -/
theorem window_marquee_triangle_wave (text : String) (width : Int)
    (h : pyWidth width < text.length) :
    (∀ n, window_marquee text width (n + 2 * maxOffset text width) =
        window_marquee text width n) ∧
    (∀ i, i < 2 * maxOffset text width →
        window_marquee text width i =
          (decide (marqueeIdx (maxOffset text width) i = 0 ∨
                   marqueeIdx (maxOffset text width) i = maxOffset text width),
           pySlice text (marqueeIdx (maxOffset text width) i) (pyWidth width))) := by
  have hm : maxOffset text width ≠ 0 := by
    unfold maxOffset; omega
  constructor
  · intro n
    rw [window_marquee_of_pos text width _ hm, window_marquee_of_pos text width n hm]
    have h2 : n + 2 * maxOffset text width = n + maxOffset text width * 2 := by ring
    rw [h2, Nat.add_mod_right]
  · intro i hi
    rw [window_marquee_of_pos text width i hm]
    have hlt : i < maxOffset text width * 2 := by omega
    rw [Nat.mod_eq_of_lt hlt]
    have hflag : (marqueeIdx (maxOffset text width) i % maxOffset text width == 0) =
        decide (marqueeIdx (maxOffset text width) i = 0 ∨
                marqueeIdx (maxOffset text width) i = maxOffset text width) := by
      rw [beq_nat_eq_decide]
      exact decide_eq_decide.mpr
        (mod_eq_zero_iff_of_le _ _ (Nat.pos_of_ne_zero hm) (marqueeIdx_le _ _))
    rw [hflag]

/-- Witness for C1 at `text = "HELLO"`, `width = 3` (so `max_offset = 2`). -/
theorem window_marquee_triangle_wave_witness :
    pyWidth 3 < ("HELLO" : String).length ∧
    window_marquee "HELLO" 3 (1 + 2 * maxOffset "HELLO" 3) =
      window_marquee "HELLO" 3 1 :=
  ⟨by decide, (window_marquee_triangle_wave "HELLO" 3 (by decide)).1 1⟩

/-- C2 counterexample: the very first element yielded by
`window_marquee("HELLO", 3)` is `(True, "HEL")`, not `(False, "HEL")` as the
claim states: at step 0 the offset is 0, an extreme, and `0 % 2 == 0`. -/
theorem window_marquee_hello_first_flag_cex :
    window_marquee "HELLO" 3 0 = (true, "HEL") ∧
    window_marquee "HELLO" 3 0 ≠ (false, "HEL") := by
  constructor
  · decide
  · decide

/-- C2 amended: `window_marquee("HELLO", 3)` yields the repeating sequence
`(true, "HEL"), (false, "ELL"), (true, "LLO"), (false, "ELL"), ...` of period
4: the first window `"HEL"` is flagged at-extreme already on the very first
step and every time the cycle returns to it. -/
theorem window_marquee_hello_cycle :
    ∀ n, window_marquee "HELLO" 3 n =
      if n % 4 = 0 then (true, "HEL")
      else if n % 4 = 1 then (false, "ELL")
      else if n % 4 = 2 then (true, "LLO")
      else (false, "ELL") := by
  intro n
  have hm : maxOffset "HELLO" 3 ≠ 0 := by decide
  rw [window_marquee_of_pos "HELLO" 3 n hm]
  have hmax : maxOffset "HELLO" 3 = 2 := by decide
  rw [hmax]
  have h4 : n % (2 * 2) = n % 4 := by norm_num
  rw [h4]
  have hlt : n % 4 < 4 := Nat.mod_lt _ (by omega)
  generalize n % 4 = r at hlt ⊢
  interval_cases r <;> decide

/-- C3: when `length(text) <= width`, every element yielded by
`window_marquee(text, width)` equals `(True, text)`. -/
theorem window_marquee_short_text (text : String) (width : Int)
    (h : (text.length : Int) ≤ width) (n : Nat) :
    window_marquee text width n = (true, text) := by
  have hw : text.length ≤ pyWidth width := by
    unfold pyWidth; omega
  have hm : maxOffset text width = 0 := by
    unfold maxOffset; omega
  unfold window_marquee
  simp [hm]

/-- Witness for C3 at `text = "HI"`, `width = 5`. -/
theorem window_marquee_short_text_witness :
    (("HI" : String).length : Int) ≤ 5 ∧
    window_marquee "HI" 5 0 = (true, "HI") :=
  ⟨by decide, window_marquee_short_text "HI" 5 (by decide) 0⟩

theorem pySlice_length_le (text : String) (start len : Nat) :
    (pySlice text start len).length ≤ len := by
  unfold pySlice
  simp only [String.length_mk]
  calc ((text.toList.drop start).take len).length ≤ len := by
        simp [List.length_take]

/-- C10: every window yielded by `window_marquee(text, width)` has length at
most `max(0, width)`; in particular, for `width <= 0` every yielded window is
the empty string. -/
theorem window_marquee_width_bound :
    (∀ (text : String) (width : Int) (n : Nat),
        ((window_marquee text width n).2).length ≤ pyWidth width) ∧
    (∀ (text : String) (width : Int) (n : Nat), width ≤ 0 →
        (window_marquee text width n).2 = "") := by
  have key : ∀ (text : String) (width : Int) (n : Nat),
      ((window_marquee text width n).2).length ≤ pyWidth width := by
    intro text width n
    by_cases hm : maxOffset text width = 0
    · have hlen : text.length ≤ pyWidth width := by
        unfold maxOffset at hm; omega
      unfold window_marquee
      simp [hm, hlen]
    · rw [window_marquee_of_pos text width n hm]
      exact pySlice_length_le _ _ _
  refine ⟨key, ?_⟩
  intro text width n hw
  have hzero : pyWidth width = 0 := by
    unfold pyWidth; omega
  have := key text width n
  rw [hzero] at this
  have hnil : ((window_marquee text width n).2).length = 0 := Nat.le_zero.mp this
  cases hS : (window_marquee text width n).2 with
  | mk l =>
    rw [hS] at hnil
    simp only [String.length_mk] at hnil
    simp [List.length_eq_zero.mp hnil]

/-- Witness for C10 at `text = "HELLO"`, `width = -2`, step 0. -/
theorem window_marquee_width_bound_witness :
    ((window_marquee "HELLO" (-2) 0).2).length ≤ pyWidth (-2) ∧
    (window_marquee "HELLO" (-2) 0).2 = "" :=
  ⟨window_marquee_width_bound.1 "HELLO" (-2) 0,
   window_marquee_width_bound.2 "HELLO" (-2) 0 (by decide)⟩

/-- C6 counterexample: rendering the Den/Bowie/Heroes player through the
bare template `\x7bname\x7d: \x7bartist\x7d - \x7btitle\x7d` does not
produce `"Den: Bowie - Heroes"`: `fmt.format(p=self)` binds only the
keyword `p`, so the field `name` raises `KeyError('name')`. -/
theorem pretty_bare_placeholder_cex :
    denPlayer.pretty (some "\x7bname\x7d: \x7bartist\x7d - \x7btitle\x7d") =
      Except.error "name" ∧
    denPlayer.pretty (some "\x7bname\x7d: \x7bartist\x7d - \x7btitle\x7d") ≠
      Except.ok "Den: Bowie - Heroes" := by
  exact ⟨rfl, by decide⟩

/-- C6 amended: through the attribute-qualified template
`\x7bp.name\x7d: \x7bp.artist\x7d - \x7bp.title\x7d` the Den/Bowie/Heroes
player renders to `"Den: Bowie - Heroes"`. -/
theorem pretty_qualified_placeholders :
    denPlayer.pretty
        (some "\x7bp.name\x7d: \x7bp.artist\x7d - \x7bp.title\x7d") =
      Except.ok "Den: Bowie - Heroes" := rfl

theorem rotate_filter_renders (matcher : String → Bool) (fmt : Option String)
    (render : Player → String) :
    ∀ l : List Player, (∀ p ∈ l, p.pretty fmt = Except.ok (render p)) →
      rotate_filter matcher fmt l =
        Except.ok ((l.map render).filter (fun s => !(matcher s))) := by
  intro l
  induction l with
  | nil => intro _; rfl
  | cons p ps ih =>
    intro h
    have hp : p.pretty fmt = Except.ok (render p) := h p (by simp)
    have hps := ih (fun q hq => h q (by simp [hq]))
    simp only [rotate_filter, hp, hps, List.map_cons, List.filter_cons]
    by_cases hm : matcher (render p)
    · simp [hm]
    · simp [hm]

/-- C5: over one pass of the status rotator with at least one active
source, the yielded statuses are exactly the rendered statuses of the
active sources that the blacklist matcher does not match, in source
order: a matching status is never yielded, a non-matching one always is. -/
theorem status_rotator_blacklist (matcher : String → Bool) (fmt : Option String)
    (players : List Player) (render : Player → String)
    (hrender : ∀ p ∈ active_players players,
        p.pretty fmt = Except.ok (render p))
    (hne : active_players players ≠ []) :
    status_rotator_pass matcher fmt players =
      Except.ok (((active_players players).map render).filter
        (fun s => !(matcher s))) := by
  unfold status_rotator_pass
  rw [rotate_filter_renders matcher fmt render _ hrender]
  simp [hne]

/-- Witness for C5: one active player, a matcher that does not match its
rendering. -/
theorem status_rotator_blacklist_witness :
    status_rotator_pass (fun s => s == "SKIP") (some "\x7bp.title\x7d")
      [denPlayer] = Except.ok ["Heroes"] := by
  have h := status_rotator_blacklist (fun s => s == "SKIP")
    (some "\x7bp.title\x7d") [denPlayer] (fun _ => "Heroes")
    (by
      intro p hp
      have hact : active_players [denPlayer] = [denPlayer] := by decide
      rw [hact] at hp
      have hp' : p = denPlayer := by simpa using hp
      subst hp'
      rfl)
    (by decide)
  rw [h]
  rfl

/-- C9: when no source is active, a rotator pass yields exactly `['']`
whatever the blacklist matcher is: the empty string is yielded without
passing through the filter, and the default pattern `'^$'` does match the
empty string. -/
theorem status_rotator_empty_yield (fmt : Option String)
    (players : List Player) (h : active_players players = []) :
    (∀ matcher : String → Bool,
        status_rotator_pass matcher fmt players = Except.ok [""]) ∧
    matchesCaretDollar "" = true := by
  refine ⟨?_, rfl⟩
  intro matcher
  unfold status_rotator_pass
  rw [h]
  rfl

/-- Witness for C9 with an empty player list and the default matcher. -/
theorem status_rotator_empty_yield_witness :
    status_rotator_pass matchesCaretDollar none [] = Except.ok [""] :=
  (status_rotator_empty_yield none [] rfl).1 matchesCaretDollar

/-- C7: refreshing a cache holding players for uuids `A` and `B` against a
registry now reporting `A` and `C` keeps the identical player object for
`A`, creates a fresh object for `C` (its tag differs from every cached
tag once `freshTag` exceeds them), and drops `B`. -/
theorem discover_preserves_identity
    (pA pB : PlayerObj) (cA cC : CastDevice) (freshTag : Nat)
    (hAeq : cA.uuid = pA.uuid) (hAB : pA.uuid ≠ pB.uuid)
    (hCA : cC.uuid ≠ pA.uuid) (hCB : cC.uuid ≠ pB.uuid)
    (hfreshA : pA.tag < freshTag) (hfreshB : pB.tag < freshTag) :
    discover [pA, pB] [cA, cC] freshTag =
      [pA, { uuid := cC.uuid, tag := freshTag + 1 }] ∧
    (freshTag + 1 ≠ pA.tag ∧ freshTag + 1 ≠ pB.tag) ∧
    (∀ q ∈ discover [pA, pB] [cA, cC] freshTag, q.uuid ≠ pB.uuid) := by
  have hBA : ¬ (pB.uuid = cA.uuid) := by omega
  have hBA2 : ¬ (pB.uuid = pA.uuid) := by omega
  have hACd : ¬ (pA.uuid = cC.uuid) := by omega
  have hBCd : ¬ (pB.uuid = cC.uuid) := by omega
  have h1 : old_players_get [pA, pB] cA.uuid = some pA := by
    simp [old_players_get, List.filter_cons, hAeq, hBA, hBA2]
  have h2 : old_players_get [pA, pB] cC.uuid = none := by
    simp [old_players_get, List.filter_cons, hACd, hBCd]
  have hmain : discover [pA, pB] [cA, cC] freshTag =
      [pA, { uuid := cC.uuid, tag := freshTag + 1 }] := by
    simp [discover, h1, h2]
  refine ⟨hmain, ⟨by omega, by omega⟩, ?_⟩
  intro q hq
  rw [hmain] at hq
  simp only [List.mem_cons, List.mem_singleton, List.not_mem_nil, or_false] at hq
  rcases hq with hq | hq
  · subst hq; exact hAB
  · subst hq; exact hCB

theorem pullStep_previous_output (st : DriverState) (s : String) :
    (pullStep st s).previous_output = st.previous_output := by
  unfold pullStep
  split <;> rfl

theorem scrollStep_none (width : Int) (st : DriverState)
    (h : st.marquee = none) : scrollStep width st = (st, none) := by
  unfold scrollStep
  rw [h]

theorem scrollStep_emit (width : Int) (st : DriverState) (text : String)
    (k : Nat) (hmq : st.marquee = some (text, k))
    (h : some (window_marquee text width k).2 ≠ st.previous_output) :
    scrollStep width st =
      ({ st with marquee := some (text, k + 1),
                 previous_output := some (window_marquee text width k).2 },
       some (window_marquee text width k).2) := by
  unfold scrollStep
  rw [hmq]
  simp only [if_pos h]

theorem scrollStep_skip (width : Int) (st : DriverState) (text : String)
    (k : Nat) (hmq : st.marquee = some (text, k))
    (h : some (window_marquee text width k).2 = st.previous_output) :
    scrollStep width st = ({ st with marquee := some (text, k + 1) }, none) := by
  unfold scrollStep
  rw [hmq]
  simp only [if_neg (not_not_intro h)]

theorem noAdjDup_of_prev (prev : Option String) (x : String)
    (xs : List String) (hx : some x ≠ prev) (hxs : noAdjDup (some x) xs) :
    noAdjDup prev (x :: xs) := by
  rcases prev with _ | p
  · exact ⟨trivial, hxs⟩
  · exact ⟨fun hpx => hx (by rw [hpx]), hxs⟩

/-- C8: over the whole run of the output driver, across marquee restarts
and status rotations, a window text is printed only when it differs from
the most recently printed text, so no two consecutive printed lines are
equal; in particular at most one blank line appears in a row. -/
theorem driver_no_consecutive_duplicates (width : Int)
    (es : List DriverEvent) (st : DriverState) :
    noAdjDup st.previous_output (driverRun width st es).2 := by
  induction es generalizing st with
  | nil => simp only [driverRun]; trivial
  | cons e es ih =>
    cases e with
    | pull s =>
      have h := ih (pullStep st s)
      rw [pullStep_previous_output] at h
      simpa only [driverRun] using h
    | scroll =>
      simp only [driverRun]
      rcases hmq : st.marquee with _ | ⟨text, k⟩
      · rw [scrollStep_none width st hmq]
        simpa using ih st
      · by_cases hout :
            some (window_marquee text width k).2 = st.previous_output
        · rw [scrollStep_skip width st text k hmq hout]
          simpa using ih { st with marquee := some (text, k + 1) }
        · rw [scrollStep_emit width st text k hmq hout]
          simp only [Option.toList_some, List.singleton_append]
          refine noAdjDup_of_prev _ _ _ hout ?_
          simpa using
            ih { st with marquee := some (text, k + 1),
                         previous_output :=
                           some (window_marquee text width k).2 }

/-- C4: whenever the status pulled from the rotator differs from the one
currently scrolling, the driver immediately records it and builds a fresh
marquee for it, starting at offset 0; consequently the marquee being
scrolled always belongs to the most recently pulled status, so the driver
never keeps scrolling an old status once the rotator's current value
differs from it. -/
theorem driver_restart_on_status_change :
    (∀ (st : DriverState) (s : String),
        st.previous_status ≠ some s →
        (pullStep st s).marquee = some (s, 0) ∧
        (pullStep st s).previous_status = some s) ∧
    (∀ (width : Int) (es : List DriverEvent) (st : DriverState),
        marquee_matches_status st →
        marquee_matches_status (driverRun width st es).1) := by
  constructor
  · intro st s h
    unfold pullStep
    rw [if_pos (Or.inl h)]
    exact ⟨rfl, rfl⟩
  · intro width es
    induction es with
    | nil => intro st h; exact h
    | cons e es ih =>
      intro st h
      cases e with
      | pull s =>
        simp only [driverRun]
        apply ih
        unfold pullStep
        split
        · intro t k hk
          simp only at hk
          cases hk
          rfl
        · exact h
      | scroll =>
        simp only [driverRun]
        apply ih
        rcases hmq : st.marquee with _ | ⟨t0, k0⟩
        · rw [scrollStep_none width st hmq]
          exact h
        · by_cases hout :
              some (window_marquee t0 width k0).2 = st.previous_output
          · rw [scrollStep_skip width st t0 k0 hmq hout]
            intro t k hk
            simp only at hk
            cases hk
            exact h t0 k0 hmq
          · rw [scrollStep_emit width st t0 k0 hmq hout]
            intro t k hk
            simp only at hk
            cases hk
            exact h t0 k0 hmq

/-- Witness for C4: pulling `"A"` into the initial state builds the fresh
marquee `("A", 0)`, and the invariant holds after running the events. -/
theorem driver_restart_on_status_change_witness :
    (pullStep initDriverState "A").marquee = some ("A", 0) ∧
    marquee_matches_status
      (driverRun 3 initDriverState [DriverEvent.pull "A"]).1 :=
  ⟨(driver_restart_on_status_change.1 initDriverState "A" (by decide)).1,
   driver_restart_on_status_change.2 3 [DriverEvent.pull "A"] initDriverState
     (by intro t k hk; simp [initDriverState] at hk)⟩

/-- Witness for C7 with uuids `A = 0`, `B = 1`, `C = 2`, cached tags 10 and
11 and fresh tags from 100. -/
theorem discover_preserves_identity_witness :
    discover [⟨0, 10⟩, ⟨1, 11⟩] [⟨0⟩, ⟨2⟩] 100 =
      [⟨0, 10⟩, ⟨2, 101⟩] ∧ ((101 : Nat) ≠ 10 ∧ (101 : Nat) ≠ 11) :=
  ⟨(discover_preserves_identity ⟨0, 10⟩ ⟨1, 11⟩ ⟨0⟩ ⟨2⟩ 100 rfl (by decide)
      (by decide) (by decide) (by decide) (by decide)).1,
   (discover_preserves_identity ⟨0, 10⟩ ⟨1, 11⟩ ⟨0⟩ ⟨2⟩ 100 rfl (by decide)
      (by decide) (by decide) (by decide) (by decide)).2.1⟩

end CastStatusbar
